import Mathlib

set_option autoImplicit false

/-!
Verification of the query-and-state coordination layer of the BigQuery
Explorer dashboard (src/big_query_bugs.py), shallowly embedded in Lean 4.

Modelling conventions:
* A pandas DataFrame is a `Frame`: an ordered list of named columns, each
  column either numeric storage (`ColData.numeric`, values as rationals) or
  object/text storage (`ColData.text`, values as strings).
* Streamlit's `st.session_state` is the `Sess` structure; the process-wide
  `st.cache_data` memoization of `run_query` is an explicit association list
  from query text to the returned pair, carried in `AppState` together with a
  counter of remote warehouse calls and the list of messages displayed via
  `st.error` / `st.success`.
* The warehouse client library and the credential builder are oracles:
  `wh : String → Except String Frame` (a query either yields rows or raises
  an exception carrying a message) and `bc : String → Option Client`
  (`get_dynamic_client`: key material either yields a client or `None`).
-/

/-! ## Frames (pandas DataFrames) -/

/-- Column storage: numeric dtype with rational values, or object dtype with
string values (the two storages relevant to the app's query results). -/
inductive ColData where
  | numeric (vals : List Rat)
  | text (vals : List String)
deriving DecidableEq, Repr

/-- A DataFrame: ordered list of (column name, column data). -/
structure Frame where
  cols : List (String × ColData)
deriving DecidableEq, Repr

/-- `df.columns` as an ordered list of names. -/
def Frame.colNames (f : Frame) : List String :=
  f.cols.map Prod.fst

/-- Look up the data of the (first) column with the given name. -/
def Frame.lookup (f : Frame) (n : String) : Option ColData :=
  (f.cols.find? (fun p => p.1 == n)).map Prod.snd

/-! ## Numeric coercion (`pd.to_numeric(col, errors="ignore")`) -/

/-- Whether a string is a numeric literal pandas' `to_numeric` accepts:
an optional sign, then digits with an optional single decimal point, with at
least one digit present (models plain decimal literals). -/
def isNumericLiteral (s : String) : Bool :=
  let cs := match s.toList with
    | '+' :: rest => rest
    | '-' :: rest => rest
    | cs => cs
  match cs.span (fun c => c.isDigit) with
  | (ds, []) => !ds.isEmpty
  | (ds, '.' :: fs) => (!ds.isEmpty || !fs.isEmpty) && fs.all (fun c => c.isDigit)
  | _ => false

/-- Numeric value of a list of digit characters. -/
def digitsToNat (l : List Char) : Nat :=
  l.foldl (fun a c => a * 10 + (c.toNat - 48)) 0

/-- The rational a numeric literal denotes. -/
def parseDecimal (s : String) : Rat :=
  let (neg, cs) : Bool × List Char := match s.toList with
    | '-' :: rest => (true, rest)
    | '+' :: rest => (false, rest)
    | cs => (false, cs)
  let (ds, rest) := cs.span (fun c => c.isDigit)
  let fs : List Char := match rest with
    | '.' :: fs => fs
    | _ => []
  let mag : Rat := (digitsToNat ds : Rat) + (digitsToNat fs : Rat) / ((10 : Rat) ^ fs.length)
  if neg then -mag else mag

/-- `pd.to_numeric(col, errors="ignore")` on one column: a numeric column is
returned unchanged; a text column converts to numeric storage when every value
is a numeric literal, and is returned unchanged when any value fails. -/
def coerceColumn : ColData → ColData
  | ColData.numeric vs => ColData.numeric vs
  | ColData.text vs =>
      if vs.all isNumericLiteral then ColData.numeric (vs.map parseDecimal)
      else ColData.text vs

/-- Whether a column's storage dtype is numeric (`select_dtypes(include=["number"])`). -/
def ColData.isNumericDtype : ColData → Bool
  | ColData.numeric _ => true
  | ColData.text _ => false

/-! ## Chart builder (`plotting_altair`, lines 203-215) -/

/-- The frame after the per-column coercion loop of `plotting_altair`. -/
def coerceFrame (f : Frame) : Frame :=
  ⟨f.cols.map (fun p => (p.1, coerceColumn p.2))⟩

/-- `numeric_cols`: names of columns with numeric dtype after coercion. -/
def numeric_cols (f : Frame) : List String :=
  ((coerceFrame f).cols.filter (fun p => p.2.isNumericDtype)).map Prod.fst

/-- `categorical_cols`: names of columns with non-numeric dtype after coercion. -/
def categorical_cols (f : Frame) : List String :=
  ((coerceFrame f).cols.filter (fun p => !p.2.isNumericDtype)).map Prod.fst

/-- Axis semantic kinds of the spec's chart builder. -/
inductive AxisKind where
  | Quantitative
  | Categorical
deriving DecidableEq, Repr

/-- The spec's `infer_axis_kind`, as the code classifies one column: coerce,
then read off the storage dtype (`x_type = "Q" if x in numeric_cols else "N"`). -/
def infer_axis_kind (c : ColData) : AxisKind :=
  if (coerceColumn c).isNumericDtype then AxisKind.Quantitative else AxisKind.Categorical

/-- The altair type letter given to an axis (line 212-213). -/
def axis_type (f : Frame) (x : String) : String :=
  if x ∈ numeric_cols f then "Q" else "N"

/-- `legend_field` (line 215): `x if x in categorical_cols else (y if y in
categorical_cols else None)`. -/
def legend_field (f : Frame) (x y : String) : Option String :=
  if x ∈ categorical_cols f then some x
  else if y ∈ categorical_cols f then some y
  else none

/-- Spec-side predicate, following the spec's words: every observed value of
the column coerces to a number (numeric storage type, or numeric-looking
text). Compared against `infer_axis_kind`, which follows the code. -/
def allValuesCoerce : ColData → Bool
  | ColData.numeric _ => true
  | ColData.text vs => vs.all isNumericLiteral

/-! ## Schema change detector (`detect_schema_change`, lines 109-123) -/

/-- `detect_schema_change(df)` as a pure function of the argument and the
stored `last_schema` slot (`none` models "last_schema" absent from the session
state). Returns the boolean result and the new slot value. -/
def detect_schema_change (df : Option Frame) (last : Option (List String)) :
    Bool × Option (List String) :=
  match df with
  | none => (false, last)
  | some f =>
      let cols := f.colNames
      match last with
      | none => (true, some cols)
      | some ls => if ls ≠ cols then (true, some cols) else (false, some ls)

/-! ## Theorems: chart builder and schema detector -/

/-- Claim C7: a column is classified Quantitative exactly when every observed
value coerces to a number (numeric storage dtype, or text whose every value is
a numeric literal); and the concrete column with values "1", "2", "bad" is
classified Categorical, one unconvertible value demoting the whole column. -/
theorem infer_axis_kind_quantitative_iff :
    (∀ c : ColData, infer_axis_kind c = AxisKind.Quantitative ↔ allValuesCoerce c = true) ∧
    infer_axis_kind (ColData.text ["1", "2", "bad"]) = AxisKind.Categorical := by
  constructor
  · intro c
    cases c with
    | numeric vs => simp [infer_axis_kind, coerceColumn, ColData.isNumericDtype, allValuesCoerce]
    | text vs =>
        by_cases h : vs.all isNumericLiteral
        · simp [infer_axis_kind, coerceColumn, h, ColData.isNumericDtype, allValuesCoerce]
        · simp [infer_axis_kind, coerceColumn, h, ColData.isNumericDtype, allValuesCoerce]
  · decide

/-- Claim C2, counterexample: after (re)initialization (no stored signature),
the very first call to the schema-change detector with an absent result
returns `false`, not `true` — so the detector does not return `true`
unconditionally on the very first call. The stored slot is also not set. -/
theorem detect_schema_change_first_call_not_unconditional :
    (detect_schema_change none none).1 = false ∧ (detect_schema_change none none).2 = none := by
  constructor <;> rfl

/-- Claim C2, amended: an absent/malformed result always returns `false` and
leaves the stored signature unchanged; a well-formed result with no stored
signature (the first such call after (re)initialization) returns `true` and
stores the column tuple; a well-formed result with a stored signature returns
`true` exactly when the ordered tuple of column names differs, updating the
slot to the new tuple when it does and keeping the old one otherwise; and a
reordering of columns with unchanged names counts as a change. -/
theorem detect_schema_change_spec :
    (∀ last, detect_schema_change none last = (false, last)) ∧
    (∀ f : Frame, detect_schema_change (some f) none = (true, some f.colNames)) ∧
    (∀ (f : Frame) (ls : List String),
      ((detect_schema_change (some f) (some ls)).1 = true ↔ ls ≠ f.colNames)) ∧
    (∀ (f : Frame) (ls : List String),
      (detect_schema_change (some f) (some ls)).2 =
        (if ls = f.colNames then some ls else some f.colNames)) ∧
    (detect_schema_change
        (some ⟨[("b", ColData.numeric []), ("a", ColData.numeric [])]⟩)
        (some ["a", "b"])).1 = true := by
  refine ⟨fun last => rfl, fun f => rfl, fun f ls => ?_, fun f ls => ?_, by decide⟩
  · by_cases h : ls = f.colNames
    · simp [detect_schema_change, h]
    · simp [detect_schema_change, h]
  · by_cases h : ls = f.colNames
    · simp [detect_schema_change, h]
    · simp [detect_schema_change, h]

/-! ## Lemmas connecting column lookup to the coerced-dtype partition -/

theorem lookup_mem (f : Frame) (n : String) (c : ColData) (h : f.lookup n = some c) :
    (n, c) ∈ f.cols := by
  unfold Frame.lookup at h
  cases hf : f.cols.find? (fun p => p.1 == n) with
  | none => rw [hf] at h; simp at h
  | some p =>
      rw [hf] at h
      have hpn : p.1 = n := by simpa using List.find?_some hf
      have hpc : p.2 = c := by simpa using h
      have hm : p ∈ f.cols := List.mem_of_find?_eq_some hf
      obtain ⟨a, b⟩ := p
      rw [show a = n from hpn, show b = c from hpc] at hm
      exact hm

theorem assoc_unique {l : List (String × ColData)} (hnd : (l.map Prod.fst).Nodup)
    {n : String} {c d : ColData} (hc : (n, c) ∈ l) (hd : (n, d) ∈ l) : c = d := by
  induction l with
  | nil => simp at hc
  | cons a t ih =>
      rw [List.map_cons, List.nodup_cons] at hnd
      obtain ⟨ha, ht⟩ := hnd
      rcases List.mem_cons.mp hc with hc1 | hc2
      · rcases List.mem_cons.mp hd with hd1 | hd2
        · have : (n, c) = (n, d) := hc1.trans hd1.symm
          exact (Prod.ext_iff.mp this).2
        · exfalso
          rw [← hc1] at ha
          exact ha (List.mem_map.mpr ⟨(n, d), hd2, rfl⟩)
      · rcases List.mem_cons.mp hd with hd1 | hd2
        · exfalso
          rw [← hd1] at ha
          exact ha (List.mem_map.mpr ⟨(n, c), hc2, rfl⟩)
        · exact ih ht hc2 hd2

theorem infer_axis_kind_categorical_iff (c : ColData) :
    infer_axis_kind c = AxisKind.Categorical ↔ (coerceColumn c).isNumericDtype = false := by
  rw [infer_axis_kind]
  by_cases h : (coerceColumn c).isNumericDtype <;> simp [h]

theorem mem_categorical_iff (f : Frame) (x : String) (cx : ColData)
    (hnd : f.colNames.Nodup) (hx : f.lookup x = some cx) :
    x ∈ categorical_cols f ↔ infer_axis_kind cx = AxisKind.Categorical := by
  have hmem : (x, cx) ∈ f.cols := lookup_mem f x cx hx
  rw [infer_axis_kind_categorical_iff]
  constructor
  · intro h
    rw [categorical_cols] at h
    obtain ⟨p, hp, hpx⟩ := List.mem_map.mp h
    obtain ⟨hpmem, hpcat⟩ := List.mem_filter.mp hp
    rw [coerceFrame] at hpmem
    obtain ⟨⟨a, b⟩, hq, hgq⟩ := List.mem_map.mp hpmem
    have hax : a = x := by rw [← hgq] at hpx; exact hpx
    rw [hax] at hq
    have hbc : b = cx := assoc_unique hnd hq hmem
    rw [← hgq] at hpcat
    simp only [Bool.not_eq_true'] at hpcat
    rw [← hbc]
    exact hpcat
  · intro h
    rw [categorical_cols]
    refine List.mem_map.mpr ⟨(x, coerceColumn cx), List.mem_filter.mpr ⟨?_, ?_⟩, rfl⟩
    · rw [coerceFrame]
      exact List.mem_map.mpr ⟨(x, cx), hmem, rfl⟩
    · simp [h]

/-- Claim C8: the legend field of a built chart is the x column when x is
categorical, else the y column when y is categorical, else absent when both
axes are quantitative (stated for a frame with distinct column names whose
x and y columns exist). -/
theorem legend_field_spec (f : Frame) (x y : String) (cx cy : ColData)
    (hnd : f.colNames.Nodup) (hx : f.lookup x = some cx) (hy : f.lookup y = some cy) :
    legend_field f x y =
      (if infer_axis_kind cx = AxisKind.Categorical then some x
       else if infer_axis_kind cy = AxisKind.Categorical then some y
       else none) := by
  by_cases h1 : infer_axis_kind cx = AxisKind.Categorical
  · rw [legend_field, if_pos ((mem_categorical_iff f x cx hnd hx).mpr h1), if_pos h1]
  · have hx1 : ¬ x ∈ categorical_cols f :=
      fun hm => h1 ((mem_categorical_iff f x cx hnd hx).mp hm)
    by_cases h2 : infer_axis_kind cy = AxisKind.Categorical
    · rw [legend_field, if_neg hx1, if_pos ((mem_categorical_iff f y cy hnd hy).mpr h2),
        if_neg h1, if_pos h2]
    · have hy1 : ¬ y ∈ categorical_cols f :=
        fun hm => h2 ((mem_categorical_iff f y cy hnd hy).mp hm)
      rw [legend_field, if_neg hx1, if_neg hy1, if_neg h1, if_neg h2]

/-- Concrete frame for exercising `legend_field_spec`: a categorical column
"a" (text values that do not coerce) and a numeric column "b". -/
def legendWitnessFrame : Frame :=
  ⟨[("a", ColData.text ["u"]), ("b", ColData.numeric [1])]⟩

/-- Claim C8, witness: on `legendWitnessFrame` with x = "a" (categorical) and
y = "b" (quantitative), the legend field is "a". -/
theorem legend_field_spec_witness :
    legend_field legendWitnessFrame "a" "b" = some "a" := by
  have h := legend_field_spec legendWitnessFrame "a" "b"
    (ColData.text ["u"]) (ColData.numeric [1]) (by decide) rfl rfl
  rw [h]
  rfl

/-! ## Session state, query cache, and the executor -/

/-- A constructed warehouse client handle (opaque; identity only). -/
abbrev Client := Nat

/-- The fields of `st.session_state` the coordination layer reads and
writes (`init_state` defaults, plus the `main_query_text` widget slot and the
`last_schema` slot of the schema-change detector). -/
structure Sess where
  client : Option Client
  selected_dataset : Option String
  schema : Frame
  selected_table : Option String
  initial_df : Option Frame
  query_error : Option String
  plot_ready : Bool
  chart_x : Option String
  chart_y : Option String
  chart_type_selected : Option String
  user_key_json : Option String
  main_query_text : String
  last_schema : Option (List String)
deriving DecidableEq, Repr

/-- Whole-app state: the session state, the process-wide `st.cache_data`
cache of `run_query` (query text → returned pair), a count of remote
warehouse calls made, and the log of messages shown to the user via
`st.error` / `st.success`. -/
structure AppState where
  sess : Sess
  queryCache : List (String × (Option Frame × Option String))
  remoteCalls : Nat
  displayed : List String
deriving DecidableEq, Repr

/-- The error component returned when no client is active (line 31). -/
def noClientMsg : String := "No BigQuery client available."

/-- The redacted, context-labeled message `safe_bigquery_error` displays
(lines 130-144); it interpolates only the context, never the error. -/
def redactedMessage (context : String) : String :=
  "Something went wrong while processing your request. Context: " ++ context ++
  ". This may be due to: temporary connection issues, missing or invalid credentials, " ++
  "insufficient permissions, an unexpected BigQuery response. " ++
  "Please try again or contact the app administrator if the issue persists."

/-- `safe_bigquery_error(error, context)`: the displayed text. The `error`
argument is accepted but never interpolated into the message, exactly as in
the source's f-string. -/
def safe_bigquery_error (error : String) (context : String) : String :=
  redactedMessage context

/-- Python string truthiness of an optional error message
(`if error` is false for both `None` and the empty string). -/
def strTruthy : Option String → Bool
  | none => false
  | some s => s != ""

/-- `run_query(query)` (lines 26-36) under `@st.cache_data`: a cache hit
returns the stored pair with no other effect; on a miss, a missing client
returns `(None, noClientMsg)` without a remote call, a successful remote call
returns `(rows, None)`, and a raised exception with message `e` displays the
redacted message and returns `(None, str(e))`; each miss stores the returned
pair in the cache under the query text. -/
def run_query (wh : String → Except String Frame) (st : AppState) (q : String) :
    (Option Frame × Option String) × AppState :=
  match st.queryCache.find? (fun p => p.1 == q) with
  | some p => (p.2, st)
  | none =>
      match st.sess.client with
      | none =>
          let out : Option Frame × Option String := (none, some noClientMsg)
          (out, { st with queryCache := (q, out) :: st.queryCache })
      | some _ =>
          match wh q with
          | Except.ok df =>
              let out : Option Frame × Option String := (some df, none)
              (out, { st with queryCache := (q, out) :: st.queryCache,
                              remoteCalls := st.remoteCalls + 1 })
          | Except.error e =>
              let out : Option Frame × Option String := (none, some e)
              (out, { st with queryCache := (q, out) :: st.queryCache,
                              remoteCalls := st.remoteCalls + 1,
                              displayed := st.displayed ++ [safe_bigquery_error e "Running SQL query"] })

/-! ## Credential handler -/

/-- `user_key_handler(user_key_json)` (lines 68-83). `bc` is
`get_dynamic_client`: builds a client from key material or yields `none` on
any parse/construction failure. Falsy input (absent or empty) is rejected
up front; on a valid build the client is replaced and the transient key
cleared; on a failed build the state's client is untouched. -/
def user_key_handler (bc : String → Option Client) (st : AppState) (key : Option String) :
    AppState × Bool :=
  match key with
  | none =>
      ({ st with displayed := st.displayed ++ ["No key provided. Please paste your BigQuery key."] },
       false)
  | some k =>
      if k == "" then
        ({ st with displayed := st.displayed ++ ["No key provided. Please paste your BigQuery key."] },
         false)
      else
        let st1 := { st with sess := { st.sess with user_key_json := some k } }
        match bc k with
        | some c =>
            ({ st1 with sess := { st1.sess with client := some c, user_key_json := none },
                        displayed := st1.displayed ++ ["Key saved successfully"] },
             true)
        | none =>
            ({ st1 with displayed := st1.displayed ++ ["Invalid credentials. Please try again."] },
             false)

/-! ## Schema fetch and dataset switching -/

/-- The INFORMATION_SCHEMA query text built by `get_schema` (lines 52-55). -/
def schema_query (d : String) : String :=
  "SELECT table_name FROM bigquery-public-data." ++ d ++ ".INFORMATION_SCHEMA.TABLES"

/-- `astype(str)` on one column. -/
def ColData.toStrings : ColData → List String
  | ColData.numeric vs => vs.map (fun v => toString v)
  | ColData.text vs => vs

/-- `df.astype(str)` on a frame. -/
def Frame.astypeStr (f : Frame) : Frame :=
  ⟨f.cols.map (fun p => (p.1, ColData.text p.2.toStrings))⟩

/-- `df.rename(columns=...)` for a single column name. -/
def Frame.renameCol (f : Frame) (old new : String) : Frame :=
  ⟨f.cols.map (fun p => (if p.1 == old then new else p.1, p.2))⟩

/-- The empty schema frame `pd.DataFrame({"table_id": []})`. -/
def emptySchemaFrame : Frame := ⟨[("table_id", ColData.text [])]⟩

/-- `get_schema(dataset)` (lines 51-65): runs the INFORMATION_SCHEMA query
through `run_query`; on a truthy error or absent frame stores the error in
`query_error`, displays the redacted message, and yields the empty schema
frame; on success renames `table_name` to `table_id` and stringifies. -/
def get_schema (wh : String → Except String Frame) (st : AppState) (d : String) :
    Frame × AppState :=
  let r := run_query wh st (schema_query d)
  if strTruthy r.1.2 || r.1.1.isNone then
    (emptySchemaFrame,
     { r.2 with sess := { r.2.sess with query_error := r.1.2 },
                displayed := r.2.displayed ++
                  [safe_bigquery_error (r.1.2.getD "") "Loading dataset schema"] })
  else
    (((r.1.1.getD emptySchemaFrame).renameCol "table_name" "table_id").astypeStr, r.2)

/-- The dataset-change branch of `build_main_view` (lines 330-333), taken when
the picked dataset differs from `st.session_state.selected_dataset`: stores
the new dataset, refetches the schema (table list), and clears the selected
table. -/
def on_dataset_change (wh : String → Except String Frame) (st : AppState) (d : String) :
    AppState :=
  let st1 := { st with sess := { st.sess with selected_dataset := some d } }
  let r := get_schema wh st1 d
  { r.2 with sess := { r.2.sess with schema := r.1, selected_table := none } }

/-! ## Query submission -/

/-- `submit_handler_main` (lines 233-255): rejects blank queries without
calling the executor; on executor failure clears the result and stores the
error; on success stores the result and, when the schema-change detector
fires, resets the chart selection and the plot-ready flag. -/
def submit_handler_main (wh : String → Except String Frame) (st : AppState) : AppState :=
  let q := st.sess.main_query_text
  if q == "" || q.trim == "" then
    { st with sess := { st.sess with initial_df := none,
                                     query_error := some "Please enter a SQL query." } }
  else
    let r := run_query wh st q
    if strTruthy r.1.2 || r.1.1.isNone then
      { r.2 with sess := { r.2.sess with initial_df := none, query_error := r.1.2 },
                 displayed := r.2.displayed ++ ["Query failed."] }
    else
      let st2 := { r.2 with sess := { r.2.sess with initial_df := r.1.1 } }
      let dc := detect_schema_change r.1.1 st2.sess.last_schema
      let st3 := { st2 with sess := { st2.sess with last_schema := dc.2 } }
      if dc.1 then
        { st3 with sess := { st3.sess with chart_x := none, chart_y := none,
                                           chart_type_selected := none, plot_ready := false } }
      else st3

/-! ## The interaction step relation and reachable states -/

/-- One user interaction, as dispatched by the handlers and widget writes of
the orchestrator. -/
inductive UiAction where
  | saveKey (key : Option String)
  | setQueryText (q : String)
  | submit
  | pickDataset (d : String)
  | pickTable (t : String)
  | pickChartX (x : Option String)
  | pickChartY (y : Option String)
  | pickChartKind (k : Option String)
  | plotBtn

/-- Effect of one interaction on the app state. -/
def step (bc : String → Option Client) (wh : String → Except String Frame)
    (st : AppState) : UiAction → AppState
  | UiAction.saveKey k => (user_key_handler bc st k).1
  | UiAction.setQueryText q => { st with sess := { st.sess with main_query_text := q } }
  | UiAction.submit => submit_handler_main wh st
  | UiAction.pickDataset d =>
      if some d ≠ st.sess.selected_dataset then on_dataset_change wh st d else st
  | UiAction.pickTable t => { st with sess := { st.sess with selected_table := some t } }
  | UiAction.pickChartX x => { st with sess := { st.sess with chart_x := x } }
  | UiAction.pickChartY y => { st with sess := { st.sess with chart_y := y } }
  | UiAction.pickChartKind k => { st with sess := { st.sess with chart_type_selected := k } }
  | UiAction.plotBtn => { st with sess := { st.sess with plot_ready := true } }

/-- The state after `init_state()` on a fresh session (lines 388-405), with an
empty query cache, no remote calls and nothing displayed. -/
def initState : AppState :=
  { sess := { client := none, selected_dataset := none, schema := emptySchemaFrame,
              selected_table := none, initial_df := none, query_error := none,
              plot_ready := false, chart_x := none, chart_y := none,
              chart_type_selected := none, user_key_json := none,
              main_query_text := "", last_schema := none },
    queryCache := [], remoteCalls := 0, displayed := [] }

/-- A state is reachable when some sequence of interactions produces it from
the freshly initialized state. -/
def Reachable (bc : String → Option Client) (wh : String → Except String Frame)
    (st : AppState) : Prop :=
  ∃ acts : List UiAction, st = acts.foldl (step bc wh) initState

/-! ## Computation lemmas for the executor -/

theorem run_query_hit (wh : String → Except String Frame) (st : AppState) (q : String)
    (p : String × (Option Frame × Option String))
    (h : st.queryCache.find? (fun r => r.1 == q) = some p) :
    run_query wh st q = (p.2, st) := by
  unfold run_query
  rw [h]

theorem run_query_miss_noclient (wh : String → Except String Frame) (st : AppState) (q : String)
    (h : st.queryCache.find? (fun r => r.1 == q) = none) (hc : st.sess.client = none) :
    run_query wh st q =
      ((none, some noClientMsg),
       { st with queryCache := (q, (none, some noClientMsg)) :: st.queryCache }) := by
  unfold run_query
  rw [h, hc]

theorem run_query_miss_ok (wh : String → Except String Frame) (st : AppState) (q : String)
    (c : Client) (df : Frame)
    (h : st.queryCache.find? (fun r => r.1 == q) = none) (hc : st.sess.client = some c)
    (hw : wh q = Except.ok df) :
    run_query wh st q =
      ((some df, none),
       { st with queryCache := (q, (some df, none)) :: st.queryCache,
                 remoteCalls := st.remoteCalls + 1 }) := by
  unfold run_query
  rw [h, hc, hw]

theorem run_query_miss_err (wh : String → Except String Frame) (st : AppState) (q : String)
    (c : Client) (e : String)
    (h : st.queryCache.find? (fun r => r.1 == q) = none) (hc : st.sess.client = some c)
    (hw : wh q = Except.error e) :
    run_query wh st q =
      ((none, some e),
       { st with queryCache := (q, (none, some e)) :: st.queryCache,
                 remoteCalls := st.remoteCalls + 1,
                 displayed := st.displayed ++ [safe_bigquery_error e "Running SQL query"] }) := by
  unfold run_query
  rw [h, hc, hw]

theorem run_query_sess_eq (wh : String → Except String Frame) (st : AppState) (q : String) :
    ((run_query wh st q).2).sess = st.sess := by
  unfold run_query
  cases h : st.queryCache.find? (fun r => r.1 == q) with
  | some p => rfl
  | none =>
      cases hc : st.sess.client with
      | none => rfl
      | some c =>
          cases hw : wh q with
          | ok df => rfl
          | error e => rfl

/-! ## Executor memoization -/

theorem find?_cons_self (q : String) (out : Option Frame × Option String)
    (l : List (String × (Option Frame × Option String))) :
    ((q, out) :: l).find? (fun r => r.1 == q) = some (q, out) := by
  apply List.find?_cons_of_pos
  simp

/-- Claim C4: calling the executor twice with the identical query string
against an unchanged client returns the identical pair, and the second call
leaves the whole application state (in particular the remote-call counter)
unchanged: no second remote warehouse call is made. -/
theorem run_query_memoizes (wh : String → Except String Frame) (st : AppState) (q : String) :
    run_query wh ((run_query wh st q).2) q = run_query wh st q := by
  cases h : st.queryCache.find? (fun r => r.1 == q) with
  | some p =>
      rw [run_query_hit wh st q p h, run_query_hit wh st q p h]
  | none =>
      cases hc : st.sess.client with
      | none =>
          rw [run_query_miss_noclient wh st q h hc]
          exact run_query_hit wh _ q (q, (none, some noClientMsg)) (find?_cons_self q _ _)
      | some c =>
          cases hw : wh q with
          | ok df =>
              rw [run_query_miss_ok wh st q c df h hc hw]
              exact run_query_hit wh _ q (q, (some df, none)) (find?_cons_self q _ _)
          | error e =>
              rw [run_query_miss_err wh st q c e h hc hw]
              exact run_query_hit wh _ q (q, (none, some e)) (find?_cons_self q _ _)

/-- `st.session_state.client = c`, all other state unchanged (as performed by
a successful key save between two executor calls). -/
def setClient (st : AppState) (c : Option Client) : AppState :=
  { st with sess := { st.sess with client := c } }

/-- Claim C10: the executor's cache is keyed solely by the query text. Once a
pair is cached for `q`, a later call with the same `q` returns that cached
pair unchanged, for any active client (replaced or first installed in the
meantime) and even against a different warehouse oracle. -/
theorem run_query_cache_ignores_client (wh2 : String → Except String Frame)
    (st : AppState) (q : String) (p : String × (Option Frame × Option String))
    (h : st.queryCache.find? (fun r => r.1 == q) = some p) (c : Option Client) :
    run_query wh2 (setClient st c) q = (p.2, setClient st c) := by
  apply run_query_hit
  exact h

/-- A warehouse oracle that always fails. -/
def whFail : String → Except String Frame := fun _ => Except.error "boom"

/-- Claim C10, witness: a no-client failure pair cached for "SELECT 1" is
returned unchanged by a later call with the same query text after a client
has been installed. -/
theorem run_query_cache_ignores_client_witness :
    run_query whFail (setClient ((run_query whFail initState "SELECT 1").2) (some 7)) "SELECT 1"
      = ((none, some noClientMsg),
         setClient ((run_query whFail initState "SELECT 1").2) (some 7)) :=
  run_query_cache_ignores_client whFail ((run_query whFail initState "SELECT 1").2) "SELECT 1"
    ("SELECT 1", (none, some noClientMsg)) rfl (some 7)

/-! ## Error redaction on the query path -/

/-- A warehouse oracle whose failures carry raw internal detail. -/
def whRaw : String → Except String Frame :=
  fun _ => Except.error "invalid_grant: raw internal credential detail"

/-- A fresh session whose client has been installed. -/
def stWithClient : AppState := setClient initState (some 0)

/-- Claim C3, counterexample: when the remote call raises with a raw message,
the error component `run_query` returns IS that raw underlying failure string
(`str(e)`), not a redacted, context-labeled message distinct from it — the
raw detail reaches the executor's returned error message, which the caller
stores in `query_error`. -/
theorem run_query_returns_raw_error_cex :
    (run_query whRaw stWithClient "SELECT 1").1.2
        = some "invalid_grant: raw internal credential detail" ∧
    (run_query whRaw stWithClient "SELECT 1").1.2
        ≠ some (redactedMessage "Running SQL query") := by
  constructor
  · rfl
  · decide

/-- Claim C3, amended: on a failure contacting the warehouse, the message the
executor DISPLAYS to the user is the redacted, context-labeled text, which
depends only on the context and never on the raw failure; but the error
component the executor RETURNS is exactly the raw underlying failure string,
stored by callers in session state rather than redacted. -/
theorem run_query_failure_redacted_display (wh : String → Except String Frame)
    (st : AppState) (q e : String) (c : Client)
    (hm : st.queryCache.find? (fun r => r.1 == q) = none)
    (hc : st.sess.client = some c) (hw : wh q = Except.error e) :
    (run_query wh st q).1 = (none, some e) ∧
    ((run_query wh st q).2).displayed = st.displayed ++ [redactedMessage "Running SQL query"] ∧
    (∀ e2 : String, safe_bigquery_error e2 "Running SQL query"
        = safe_bigquery_error e "Running SQL query") := by
  rw [run_query_miss_err wh st q c e hm hc hw]
  exact ⟨rfl, rfl, fun e2 => rfl⟩

/-- Claim C3 (amended), witness: the failure path evaluated on a concrete
failing warehouse call. -/
theorem run_query_failure_redacted_display_witness :
    (run_query whRaw stWithClient "SELECT 1").1
        = (none, some "invalid_grant: raw internal credential detail") ∧
    ((run_query whRaw stWithClient "SELECT 1").2).displayed
        = stWithClient.displayed ++ [redactedMessage "Running SQL query"] ∧
    (∀ e2 : String, safe_bigquery_error e2 "Running SQL query"
        = safe_bigquery_error "invalid_grant: raw internal credential detail"
            "Running SQL query") :=
  run_query_failure_redacted_display whRaw stWithClient "SELECT 1"
    "invalid_grant: raw internal credential detail" 0 rfl rfl rfl

/-! ## Credential validation failures -/

/-- Claim C9: whenever credential validation fails — the key material is
absent or empty, or the client build fails for the supplied key — the handler
reports failure (the credential-error outcome) and the session's active
client handle is exactly what it was before: a stored handle stays untouched,
an unset handle stays unset. -/
theorem user_key_handler_invalid_keeps_client (bc : String → Option Client)
    (st : AppState) (key : Option String)
    (h : ∀ k, key = some k → k ≠ "" → bc k = none) :
    ((user_key_handler bc st key).1).sess.client = st.sess.client ∧
    (user_key_handler bc st key).2 = false := by
  cases key with
  | none => exact ⟨rfl, rfl⟩
  | some k =>
      by_cases hk : k == ""
      · simp [user_key_handler, hk]
      · have hbc : bc k = none := h k rfl (by simpa using hk)
        simp [user_key_handler, hk, hbc]

/-- A credential builder that rejects every key (any malformed key material
makes `get_dynamic_client` yield `None`). -/
def bcNone : String → Option Client := fun _ => none

/-- Claim C9, witness: the malformed credential of the spec's scenario (a
document holding only a project id, missing the required fields) is rejected
and the fresh session's client stays unset. -/
theorem user_key_handler_invalid_keeps_client_witness :
    ((user_key_handler bcNone initState (some "\x7b\"project_id\":\"demo\"\x7d")).1).sess.client
        = initState.sess.client ∧
    (user_key_handler bcNone initState (some "\x7b\"project_id\":\"demo\"\x7d")).2 = false :=
  user_key_handler_invalid_keeps_client bcNone initState
    (some "\x7b\"project_id\":\"demo\"\x7d") (fun _ _ _ => rfl)

/-! ## Dataset switching -/

theorem get_schema_sess_fields (wh : String → Except String Frame) (st : AppState) (d : String) :
    ((get_schema wh st d).2).sess.chart_x = st.sess.chart_x ∧
    ((get_schema wh st d).2).sess.chart_y = st.sess.chart_y ∧
    ((get_schema wh st d).2).sess.chart_type_selected = st.sess.chart_type_selected ∧
    ((get_schema wh st d).2).sess.plot_ready = st.sess.plot_ready ∧
    ((get_schema wh st d).2).sess.initial_df = st.sess.initial_df ∧
    ((get_schema wh st d).2).sess.selected_dataset = st.sess.selected_dataset ∧
    ((get_schema wh st d).2).sess.selected_table = st.sess.selected_table ∧
    ((get_schema wh st d).2).sess.client = st.sess.client ∧
    ((get_schema wh st d).2).sess.last_schema = st.sess.last_schema ∧
    ((get_schema wh st d).2).sess.main_query_text = st.sess.main_query_text := by
  have hsess := run_query_sess_eq wh st (schema_query d)
  unfold get_schema
  by_cases hcond : strTruthy (run_query wh st (schema_query d)).1.2
      || (run_query wh st (schema_query d)).1.1.isNone
  · simp only [hcond, if_true]
    simp [hsess]
  · simp only [hcond, if_false]
    simp [hsess]

/-- A warehouse oracle that answers every query with a one-column table list. -/
def whTables : String → Except String Frame :=
  fun _ => Except.ok ⟨[("table_name", ColData.text ["t1", "t2"])]⟩

/-- A session in the `ChartReady` shape: client installed, a dataset selected,
a query result present, the chart selection fully set and the plot flag
raised. -/
def chartReadyState : AppState :=
  { initState with sess := { initState.sess with
      client := some 0,
      selected_dataset := some "ds_old",
      initial_df := some ⟨[("a", ColData.numeric [1]), ("b", ColData.numeric [2])]⟩,
      chart_x := some "a", chart_y := some "b",
      chart_type_selected := some "Scatter",
      plot_ready := true,
      last_schema := some ["a", "b"] } }

/-- Claim C1, counterexample: a session in `ChartReady` shape (result present,
chart selection set, plot flag raised) switches dataset; afterwards the chart
selection is still fully set, the plot flag is still raised, and the query
result is still present — the switch resets only the table list and selected
table, contradicting the claimed reset of chart selection and discard of the
downstream result. -/
theorem dataset_switch_keeps_chart_cex :
    (on_dataset_change whTables chartReadyState "ds_new").sess.chart_x = some "a" ∧
    (on_dataset_change whTables chartReadyState "ds_new").sess.chart_y = some "b" ∧
    (on_dataset_change whTables chartReadyState "ds_new").sess.chart_type_selected
        = some "Scatter" ∧
    (on_dataset_change whTables chartReadyState "ds_new").sess.plot_ready = true ∧
    (on_dataset_change whTables chartReadyState "ds_new").sess.initial_df
        = chartReadyState.sess.initial_df ∧
    (chartReadyState.sess.initial_df).isSome = true ∧
    (on_dataset_change whTables chartReadyState "ds_new").sess.selected_table = none ∧
    some "ds_new" ≠ chartReadyState.sess.selected_dataset := by
  refine ⟨rfl, rfl, rfl, rfl, rfl, rfl, rfl, by decide⟩

/-- Claim C1, amended: switching the selected dataset (picking a dataset
different from the stored one) stores the new dataset, invalidates the cached
table list — the schema slot is replaced by a fresh fetch for the new
dataset — and resets the selected table to unset; but it leaves the Chart
Selection (x, y, kind), the plot-ready flag and the current query result
unchanged. Chart state is reset only by a later query submission whose
result's schema signature differs. -/
theorem dataset_switch_spec (wh : String → Except String Frame) (st : AppState) (d : String)
    (hne : some d ≠ st.sess.selected_dataset) :
    (on_dataset_change wh st d).sess.selected_dataset = some d ∧
    (on_dataset_change wh st d).sess.selected_table = none ∧
    (on_dataset_change wh st d).sess.schema
        = (get_schema wh { st with sess := { st.sess with selected_dataset := some d } } d).1 ∧
    (on_dataset_change wh st d).sess.chart_x = st.sess.chart_x ∧
    (on_dataset_change wh st d).sess.chart_y = st.sess.chart_y ∧
    (on_dataset_change wh st d).sess.chart_type_selected = st.sess.chart_type_selected ∧
    (on_dataset_change wh st d).sess.plot_ready = st.sess.plot_ready ∧
    (on_dataset_change wh st d).sess.initial_df = st.sess.initial_df := by
  have hf := get_schema_sess_fields wh
    { st with sess := { st.sess with selected_dataset := some d } } d
  unfold on_dataset_change
  refine ⟨?_, rfl, rfl, ?_, ?_, ?_, ?_, ?_⟩
  · exact hf.2.2.2.2.2.1
  · exact hf.1
  · exact hf.2.1
  · exact hf.2.2.1
  · exact hf.2.2.2.1
  · exact hf.2.2.2.2.1

/-- Claim C1 (amended), witness: the dataset switch evaluated on the concrete
`ChartReady` session. -/
theorem dataset_switch_spec_witness :
    (on_dataset_change whTables chartReadyState "ds_new").sess.selected_dataset
        = some "ds_new" ∧
    (on_dataset_change whTables chartReadyState "ds_new").sess.selected_table = none ∧
    (on_dataset_change whTables chartReadyState "ds_new").sess.schema
        = (get_schema whTables
            { chartReadyState with sess :=
                { chartReadyState.sess with selected_dataset := some "ds_new" } } "ds_new").1 ∧
    (on_dataset_change whTables chartReadyState "ds_new").sess.chart_x
        = chartReadyState.sess.chart_x ∧
    (on_dataset_change whTables chartReadyState "ds_new").sess.chart_y
        = chartReadyState.sess.chart_y ∧
    (on_dataset_change whTables chartReadyState "ds_new").sess.chart_type_selected
        = chartReadyState.sess.chart_type_selected ∧
    (on_dataset_change whTables chartReadyState "ds_new").sess.plot_ready
        = chartReadyState.sess.plot_ready ∧
    (on_dataset_change whTables chartReadyState "ds_new").sess.initial_df
        = chartReadyState.sess.initial_df :=
  dataset_switch_spec whTables chartReadyState "ds_new" (by decide)

/-! ## Invariants of reachable states -/

/-- A well-formed executor pair: exactly one component present. -/
def GoodPair (out : Option Frame × Option String) : Prop :=
  (out.1.isSome = true ∧ out.2 = none) ∨ (out.1 = none ∧ out.2.isSome = true)

/-- Every cached pair is well-formed. -/
def CacheInv (st : AppState) : Prop :=
  ∀ p ∈ st.queryCache, GoodPair p.2

/-- While no client is active, every cached pair is the no-client failure
pair (the session never unsets an installed client, so entries cached while a
client existed cannot coexist with an absent client). -/
def NoClientInv (st : AppState) : Prop :=
  st.sess.client = none → ∀ p ∈ st.queryCache, p.2 = (none, some noClientMsg)

theorem run_query_preserves (wh : String → Except String Frame) (st : AppState) (q : String)
    (h1 : CacheInv st) :
    CacheInv (run_query wh st q).2 ∧ GoodPair (run_query wh st q).1 := by
  cases h : st.queryCache.find? (fun r => r.1 == q) with
  | some p =>
      rw [run_query_hit wh st q p h]
      exact ⟨h1, h1 p (List.mem_of_find?_eq_some h)⟩
  | none =>
      cases hc : st.sess.client with
      | none =>
          rw [run_query_miss_noclient wh st q h hc]
          refine ⟨?_, Or.inr ⟨rfl, rfl⟩⟩
          intro p hp
          rcases List.mem_cons.mp hp with hp1 | hp2
          · rw [hp1]; exact Or.inr ⟨rfl, rfl⟩
          · exact h1 p hp2
      | some c =>
          cases hw : wh q with
          | ok df =>
              rw [run_query_miss_ok wh st q c df h hc hw]
              refine ⟨?_, Or.inl ⟨rfl, rfl⟩⟩
              intro p hp
              rcases List.mem_cons.mp hp with hp1 | hp2
              · rw [hp1]; exact Or.inl ⟨rfl, rfl⟩
              · exact h1 p hp2
          | error e =>
              rw [run_query_miss_err wh st q c e h hc hw]
              refine ⟨?_, Or.inr ⟨rfl, rfl⟩⟩
              intro p hp
              rcases List.mem_cons.mp hp with hp1 | hp2
              · rw [hp1]; exact Or.inr ⟨rfl, rfl⟩
              · exact h1 p hp2

theorem run_query_preserves_noclient (wh : String → Except String Frame) (st : AppState)
    (q : String) (h2 : NoClientInv st) :
    NoClientInv (run_query wh st q).2 := by
  cases h : st.queryCache.find? (fun r => r.1 == q) with
  | some p =>
      rw [run_query_hit wh st q p h]
      exact h2
  | none =>
      cases hc : st.sess.client with
      | none =>
          rw [run_query_miss_noclient wh st q h hc]
          intro _ p hp
          rcases List.mem_cons.mp hp with hp1 | hp2
          · rw [hp1]
          · exact h2 hc p hp2
      | some c =>
          cases hw : wh q with
          | ok df =>
              rw [run_query_miss_ok wh st q c df h hc hw]
              intro hcl
              rw [show ({ st with queryCache := (q, ((some df : Option Frame), (none : Option String))) :: st.queryCache, remoteCalls := st.remoteCalls + 1 } : AppState).sess.client = st.sess.client from rfl, hc] at hcl
              exact absurd hcl (by simp)
          | error e =>
              rw [run_query_miss_err wh st q c e h hc hw]
              intro hcl
              rw [show ({ st with queryCache := (q, ((none : Option Frame), (some e : Option String))) :: st.queryCache, remoteCalls := st.remoteCalls + 1, displayed := st.displayed ++ [safe_bigquery_error e "Running SQL query"] } : AppState).sess.client = st.sess.client from rfl, hc] at hcl
              exact absurd hcl (by simp)

theorem user_key_handler_preserves (bc : String → Option Client) (st : AppState)
    (key : Option String) (h1 : CacheInv st) (h2 : NoClientInv st) :
    CacheInv ((user_key_handler bc st key).1) ∧ NoClientInv ((user_key_handler bc st key).1) := by
  cases key with
  | none => exact ⟨h1, h2⟩
  | some k =>
      by_cases hk : (k == "") = true
      · simp only [user_key_handler]
        rw [if_pos hk]
        exact ⟨h1, h2⟩
      · simp only [user_key_handler]
        rw [if_neg hk]
        cases hbc : bc k with
        | some c =>
            refine ⟨h1, ?_⟩
            intro hcl
            exact absurd hcl (by simp)
        | none => exact ⟨h1, h2⟩

theorem get_schema_queryCache (wh : String → Except String Frame) (st : AppState) (d : String) :
    ((get_schema wh st d).2).queryCache = ((run_query wh st (schema_query d)).2).queryCache := by
  simp only [get_schema]
  split
  · rfl
  · rfl

theorem get_schema_preserves (wh : String → Except String Frame) (st : AppState) (d : String)
    (h1 : CacheInv st) (h2 : NoClientInv st) :
    CacheInv ((get_schema wh st d).2) ∧ NoClientInv ((get_schema wh st d).2) := by
  have hr1 := (run_query_preserves wh st (schema_query d) h1).1
  have hr2 := run_query_preserves_noclient wh st (schema_query d) h2
  have hq := get_schema_queryCache wh st d
  have hcl : ((get_schema wh st d).2).sess.client
      = ((run_query wh st (schema_query d)).2).sess.client := by
    have hf := get_schema_sess_fields wh st d
    rw [hf.2.2.2.2.2.2.2.1, run_query_sess_eq]
  constructor
  · intro p hp
    rw [hq] at hp
    exact hr1 p hp
  · intro hcn p hp
    rw [hq] at hp
    rw [hcl] at hcn
    exact hr2 hcn p hp

theorem on_dataset_change_preserves (wh : String → Except String Frame) (st : AppState)
    (d : String) (h1 : CacheInv st) (h2 : NoClientInv st) :
    CacheInv (on_dataset_change wh st d) ∧ NoClientInv (on_dataset_change wh st d) := by
  have hst1 : CacheInv { st with sess := { st.sess with selected_dataset := some d } } := h1
  have hst2 : NoClientInv { st with sess := { st.sess with selected_dataset := some d } } := by
    intro hcl p hp
    exact h2 hcl p hp
  have hg := get_schema_preserves wh
    { st with sess := { st.sess with selected_dataset := some d } } d hst1 hst2
  constructor
  · intro p hp
    exact hg.1 p hp
  · intro hcl p hp
    exact hg.2 hcl p hp

theorem submit_handler_main_preserves (wh : String → Except String Frame) (st : AppState)
    (h1 : CacheInv st) (h2 : NoClientInv st) :
    CacheInv (submit_handler_main wh st) ∧ NoClientInv (submit_handler_main wh st) := by
  have hr1 := (run_query_preserves wh st st.sess.main_query_text h1).1
  have hr2 := run_query_preserves_noclient wh st st.sess.main_query_text h2
  simp only [submit_handler_main]
  split
  · exact ⟨fun p hp => h1 p hp, fun hcl p hp => h2 hcl p hp⟩
  · split
    · exact ⟨fun p hp => hr1 p hp, fun hcl p hp => hr2 hcl p hp⟩
    · split
      · exact ⟨fun p hp => hr1 p hp, fun hcl p hp => hr2 hcl p hp⟩
      · exact ⟨fun p hp => hr1 p hp, fun hcl p hp => hr2 hcl p hp⟩

theorem step_preserves (bc : String → Option Client) (wh : String → Except String Frame)
    (st : AppState) (a : UiAction) (h1 : CacheInv st) (h2 : NoClientInv st) :
    CacheInv (step bc wh st a) ∧ NoClientInv (step bc wh st a) := by
  cases a with
  | saveKey k => exact user_key_handler_preserves bc st k h1 h2
  | setQueryText q => exact ⟨fun p hp => h1 p hp, fun hcl p hp => h2 hcl p hp⟩
  | submit => exact submit_handler_main_preserves wh st h1 h2
  | pickDataset d =>
      simp only [step]
      split
      · exact on_dataset_change_preserves wh st d h1 h2
      · exact ⟨h1, h2⟩
  | pickTable t => exact ⟨fun p hp => h1 p hp, fun hcl p hp => h2 hcl p hp⟩
  | pickChartX x => exact ⟨fun p hp => h1 p hp, fun hcl p hp => h2 hcl p hp⟩
  | pickChartY y => exact ⟨fun p hp => h1 p hp, fun hcl p hp => h2 hcl p hp⟩
  | pickChartKind k => exact ⟨fun p hp => h1 p hp, fun hcl p hp => h2 hcl p hp⟩
  | plotBtn => exact ⟨fun p hp => h1 p hp, fun hcl p hp => h2 hcl p hp⟩

theorem foldl_preserves (bc : String → Option Client) (wh : String → Except String Frame)
    (acts : List UiAction) (s : AppState) (h : CacheInv s ∧ NoClientInv s) :
    CacheInv (acts.foldl (step bc wh) s) ∧ NoClientInv (acts.foldl (step bc wh) s) := by
  induction acts generalizing s with
  | nil => exact h
  | cons a t ih => exact ih (step bc wh s a) ⟨(step_preserves bc wh s a h.1 h.2).1,
      (step_preserves bc wh s a h.1 h.2).2⟩

theorem reachable_inv (bc : String → Option Client) (wh : String → Except String Frame)
    (st : AppState) (h : Reachable bc wh st) : CacheInv st ∧ NoClientInv st := by
  obtain ⟨acts, rfl⟩ := h
  apply foldl_preserves
  constructor
  · intro p hp
    simp [initState] at hp
  · intro _ p hp
    simp [initState] at hp

/-- Claim C5: in every reachable session, for every query string, the
executor returns a pair of which exactly one component is non-null — a
present result with a null error, or a null result with a present error. -/
theorem run_query_exactly_one (bc : String → Option Client)
    (wh : String → Except String Frame) (st : AppState)
    (hr : Reachable bc wh st) (q : String) :
    ((run_query wh st q).1.1.isSome = true ∧ (run_query wh st q).1.2 = none) ∨
    ((run_query wh st q).1.1 = none ∧ (run_query wh st q).1.2.isSome = true) :=
  (run_query_preserves wh st q (reachable_inv bc wh st hr).1).2

/-- Claim C5, witness: the executor evaluated at the freshly initialized
session returns the no-client failure pair — null result, present error. -/
theorem run_query_exactly_one_witness :
    ((run_query whFail initState "SELECT 1").1.1.isSome = true ∧
      (run_query whFail initState "SELECT 1").1.2 = none) ∨
    ((run_query whFail initState "SELECT 1").1.1 = none ∧
      (run_query whFail initState "SELECT 1").1.2.isSome = true) :=
  run_query_exactly_one bcNone whFail initState ⟨[], rfl⟩ "SELECT 1"

/-- Claim C6: in every reachable session with no active client handle, the
executor returns the pair (null, "No BigQuery client available.") and makes
no remote warehouse call. (An installed client is never unset within a
session, so while the client is absent every cached entry is this same
no-client pair, and both the fresh path and the cached path return it.) -/
theorem run_query_no_client (bc : String → Option Client)
    (wh : String → Except String Frame) (st : AppState)
    (hr : Reachable bc wh st) (hc : st.sess.client = none) (q : String) :
    (run_query wh st q).1 = (none, some noClientMsg) ∧
    ((run_query wh st q).2).remoteCalls = st.remoteCalls := by
  have hinv := (reachable_inv bc wh st hr).2
  cases h : st.queryCache.find? (fun r => r.1 == q) with
  | some p =>
      rw [run_query_hit wh st q p h]
      exact ⟨hinv hc p (List.mem_of_find?_eq_some h), rfl⟩
  | none =>
      rw [run_query_miss_noclient wh st q h hc]
      exact ⟨rfl, rfl⟩

/-- Claim C6, witness: the freshly initialized session has no client, and the
executor returns the no-client pair with the remote-call counter unchanged. -/
theorem run_query_no_client_witness :
    (run_query whFail initState "SELECT 2").1 = (none, some noClientMsg) ∧
    ((run_query whFail initState "SELECT 2").2).remoteCalls = initState.remoteCalls :=
  run_query_no_client bcNone whFail initState ⟨[], rfl⟩ rfl "SELECT 2"
